import Mathlib

/-
  Verification of the Recovery & Training-Load Analytics Engine of the
  AI_Trainer repository.

  The backend engine (component scorers, ACWR risk model, aggregator,
  recommendation engine) is specified in the repository's planning
  documents (specs/001-training-optimizer/research.md, data-model.md,
  contracts/recovery-api.md) but its implementation source is not part
  of the repository snapshot; those parts are modelled from the spec,
  as marked in each doc comment.  The frontend helpers
  (getIntensityColor, formatZones) are embedded directly from
  frontend/src/components/WorkoutRecommendation.tsx.
-/

namespace AITrainer

/-- Tri-state status band of a recovery score. -/
inductive Status
  | green
  | yellow
  | red
deriving DecidableEq

/-- Modelled from the spec: the status thresholds of the aggregator
(data-model.md Color Coding; spec 4.4): total at least 80 is green,
50 to 79 is yellow, below 50 is red. -/
def statusOf (total : ℤ) : Status :=
  if 80 ≤ total then Status.green
  else if 50 ≤ total then Status.yellow
  else Status.red

/-- Linear interpolation through the two points (x0, y0) and (x1, y1),
evaluated at x. -/
def lerp (x0 y0 x1 y1 x : ℚ) : ℚ :=
  y0 + (x - x0) * (y1 - y0) / (x1 - x0)

/-- Modelled from the spec: the HRV piecewise-linear anchor map of the
HRV component scorer (research.md: +10 percent gives 100, -10 percent
gives 50, -20 percent gives 0, linear interpolation between anchors and
clamped outside). The argument is the relative deviation of today
against the 7-day baseline. -/
def hrvMap (d : ℚ) : ℚ :=
  if 1/10 ≤ d then 100
  else if -(1/10) ≤ d then lerp (-(1/10)) 50 (1/10) 100 d
  else if -(1/5) ≤ d then lerp (-(1/5)) 0 (-(1/10)) 50 d
  else 0

/-- Modelled from the spec: the HRV component scorer of
src/services/recovery/calculator.py, whose fragment appears in the
developer quickstart: deviation = (current - avg) / avg fed through the
anchor map. -/
def calculate_hrv_component (current avg : ℚ) : ℚ :=
  hrvMap ((current - avg) / avg)

/-- Modelled from the spec: the resting-HR anchor map (inverse
relationship, research.md: -5 percent gives 100, 0 percent gives 50,
+10 percent gives 0, linear between anchors, clamped outside). -/
def hrMap (d : ℚ) : ℚ :=
  if d ≤ -(1/20) then 100
  else if d ≤ 0 then lerp (-(1/20)) 100 0 50 d
  else if d ≤ 1/10 then lerp 0 50 (1/10) 0 d
  else 0

/-- Modelled from the spec: the resting-HR component scorer, deviation
of today against the 7-day baseline fed through the inverse anchor
map. -/
def calculate_hr_component (current avg : ℚ) : ℚ :=
  hrMap ((current - avg) / avg)

/-- Modelled from the spec: the sleep-duration anchor map (research.md:
7 to 9 hours gives 100, 6 hours gives 70, at most 5 hours gives 30,
linear interpolation elsewhere).  Durations are minutes.  The spec
leaves the shape above 9 hours open; the plateau value 100 is kept
there. -/
def sleepDurationScore (m : ℚ) : ℚ :=
  if m ≤ 300 then 30
  else if m ≤ 360 then lerp 300 30 360 70 m
  else if m ≤ 420 then lerp 360 70 420 100 m
  else 100

/-- Modelled from the spec: the sleep component scorer: 0.6 times the
duration score plus 0.4 times the quality score, the quality score
falling back to the duration score when absent (spec 4.2). -/
def calculate_sleep_component (duration : ℚ) (quality : Option ℚ) : ℚ :=
  let ds := sleepDurationScore duration
  let qs := quality.getD ds
  3/5 * ds + 2/5 * qs

/-- Modelled from the spec: the stress component scorer, a plain
inversion of the 0-100 stress level (research.md). -/
def calculate_stress_component (stress : ℚ) : ℚ :=
  100 - stress

/-- Modelled from the spec: the HRV scorer on optional inputs; a missing
value for today (or a missing baseline) yields no score (spec 4.2). -/
def hrvScorer : Option ℚ → Option ℚ → Option ℚ
  | some t, some b => some (calculate_hrv_component t b)
  | _, _ => none

/-- Modelled from the spec: the resting-HR scorer on optional inputs; a
missing value for today (or a missing baseline) yields no score. -/
def hrScorer : Option ℚ → Option ℚ → Option ℚ
  | some t, some b => some (calculate_hr_component t b)
  | _, _ => none

/-- Modelled from the spec: the sleep scorer on optional inputs; a
missing duration yields no score, a missing quality falls back to the
duration score. -/
def sleepScorer : Option ℚ → Option ℚ → Option ℚ
  | some d, q => some (calculate_sleep_component d q)
  | none, _ => none

/-- Modelled from the spec: the stress scorer on an optional input; a
missing stress level yields no score. -/
def stressScorer : Option ℚ → Option ℚ
  | some s => some (calculate_stress_component s)
  | none => none

/-- The four optional component scores entering aggregation. -/
structure ComponentScores where
  hrv : Option ℚ
  hr : Option ℚ
  sleep : Option ℚ
  stress : Option ℚ
deriving DecidableEq

/-- Modelled from the spec: the weighted components as (weight, optional
score) pairs, weights HRV 0.4, HR 0.3, Sleep 0.2, Stress 0.1
(research.md; spec 4.2). -/
def componentPairs (c : ComponentScores) : List (ℚ × Option ℚ) :=
  [(2/5, c.hrv), (3/10, c.hr), (1/5, c.sleep), (1/10, c.stress)]

/-- The pairs whose score is present, with the option stripped. -/
def presentPairs (ps : List (ℚ × Option ℚ)) : List (ℚ × ℚ) :=
  ps.filterMap (fun p => p.2.map (fun s => (p.1, s)))

/-- Modelled from the spec: the weighted sum over the present
components, the weights renormalised by their total so that absent
components are excluded rather than counted as zero (spec 4.2); none
when no component is present. -/
def weightedSum (ps : List (ℚ × Option ℚ)) : Option ℚ :=
  let present := presentPairs ps
  if present.isEmpty then none
  else some (((present.map (fun p => p.1 * p.2)).sum) / ((present.map Prod.fst).sum))

/-- Clamp an integer score into the range 0 to 100. -/
def clampScore (n : ℤ) : ℤ :=
  max 0 (min 100 n)

/-- Modelled from the spec: the aggregated total score, the rounded and
clamped product of the weighted component sum with the ACWR adjustment
factor (spec 4.4); none when no component is present. -/
def totalScoreOf (c : ComponentScores) (adj : ℚ) : Option ℤ :=
  (weightedSum (componentPairs c)).map (fun w => clampScore (round (w * adj)))

/-- Modelled from the spec: the ACWR load-ratio risk model (spec 4.3;
research.md Training Load Adjustment): ratio is acute over chronic,
undefined when the chronic load is absent or zero; the adjustment
factor is 0.8 above ratio 1.5, 0.9 above 1.3, and otherwise 1.
Returns the pair (ratio, adjustment factor). -/
def acwrModel (acute : ℚ) (chronic : Option ℚ) : Option ℚ × ℚ :=
  match chronic with
  | none => (none, 1)
  | some c =>
    if c = 0 then (none, 1)
    else
      let r := acute / c
      (some r, if 3/2 < r then 4/5 else if 13/10 < r then 9/10 else 1)

/-- Modelled from the spec: the anomaly flag of the aggregator (spec
4.4): set exactly when today's resting HR is at least 1.10 times its
baseline while today's HRV is at most 0.90 times its baseline, both
values and both baselines being present. -/
def anomalyFlagOf (hrvToday hrvBase hrToday hrBase : Option ℚ) : Bool :=
  match hrToday, hrBase, hrvToday, hrvBase with
  | some ht, some hb, some vt, some vb => decide (11/10 * hb ≤ ht ∧ vt ≤ 9/10 * vb)
  | _, _, _, _ => false

/-- Daily physiological metrics of one user for one date; every field
may be absent (spec 3, DailyMetrics). -/
structure DailyMetrics where
  hrv_ms : Option ℚ
  resting_hr_bpm : Option ℚ
  sleep_duration_minutes : Option ℚ
  sleep_quality_score : Option ℚ
  stress_level : Option ℚ
deriving DecidableEq

/-- Rolling statistics anchored at the target date (spec 3,
RollingBaseline). -/
structure RollingBaseline where
  hrv_avg_7d : Option ℚ
  hr_avg_7d : Option ℚ
  acute_load_7d : ℚ
  chronic_load_28d : Option ℚ
deriving DecidableEq

/-- The aggregated recovery score record (spec 3, RecoveryScore). -/
structure RecoveryScore where
  total_score : ℤ
  status : Status
  hrv_component : Option ℚ
  hr_component : Option ℚ
  sleep_component : Option ℚ
  stress_component : Option ℚ
  acwr_ratio : Option ℚ
  adjustment_factor : ℚ
  anomaly_flag : Bool
deriving DecidableEq

/-- Modelled from the spec: the Recovery Score Aggregator (spec 4.4):
runs the four scorers, the ACWR model, combines the weighted present
components with the adjustment factor into the rounded clamped total,
derives the status band, and sets the anomaly flag.  The spec leaves
the all-components-absent case open; total 0 is used there. -/
def aggregate (m : DailyMetrics) (b : RollingBaseline) : RecoveryScore :=
  let hrvS := hrvScorer m.hrv_ms b.hrv_avg_7d
  let hrS := hrScorer m.resting_hr_bpm b.hr_avg_7d
  let sleepS := sleepScorer m.sleep_duration_minutes m.sleep_quality_score
  let stressS := stressScorer m.stress_level
  let a := acwrModel b.acute_load_7d b.chronic_load_28d
  let comps : ComponentScores := ⟨hrvS, hrS, sleepS, stressS⟩
  let total := (totalScoreOf comps a.2).getD 0
  { total_score := total
    status := statusOf total
    hrv_component := hrvS
    hr_component := hrS
    sleep_component := sleepS
    stress_component := stressS
    acwr_ratio := a.1
    adjustment_factor := a.2
    anomaly_flag := anomalyFlagOf m.hrv_ms b.hrv_avg_7d m.resting_hr_bpm b.hr_avg_7d }

/-- The typed insufficient-history error (spec 6; recovery-api.md 503
body with days_of_data and required_days). -/
structure InsufficientHistory where
  days_available : ℕ
  days_required : ℕ
deriving DecidableEq

/-- Modelled from the spec: the entry point computeRecoveryScore (spec
6): with fewer than 7 days of metrics on record it fails with the typed
InsufficientHistory error carrying the available and required day
counts; otherwise it returns the aggregated score. -/
def computeRecoveryScore (history : List DailyMetrics) (today : DailyMetrics)
    (b : RollingBaseline) : Except InsufficientHistory RecoveryScore :=
  if history.length < 7 then Except.error ⟨history.length, 7⟩
  else Except.ok (aggregate today b)

/-- Workout intensity tiers in increasing order (spec 3). -/
inductive Intensity
  | rest
  | recovery
  | easy
  | moderate
  | hard
  | maximal
deriving DecidableEq

/-- Modelled from the spec: the base tier of the recommendation state
machine keyed by status (spec 4.5): green to hard, yellow to moderate,
red to rest. -/
def baseTier : Status → Intensity
  | Status.green => Intensity.hard
  | Status.yellow => Intensity.moderate
  | Status.red => Intensity.rest

/-- One tier down, saturating at rest (the engine always produces an
answer, worst case a rest day, spec 7). -/
def downgradeTier : Intensity → Intensity
  | Intensity.maximal => Intensity.hard
  | Intensity.hard => Intensity.moderate
  | Intensity.moderate => Intensity.easy
  | Intensity.easy => Intensity.recovery
  | Intensity.recovery => Intensity.rest
  | Intensity.rest => Intensity.rest

/-- Whether a logged session counts as moderate-or-above for the
overtraining rule. -/
def moderateOrAbove : Intensity → Bool
  | Intensity.moderate => true
  | Intensity.hard => true
  | Intensity.maximal => true
  | _ => false

/-- Modelled from the spec: the overtraining condition (spec 4.5):
moderate-or-above sessions on 3 or more of the preceding 3 calendar
days; the input lists the hardest logged session of each preceding
day. -/
def overtrained (recentDays : List Intensity) : Bool :=
  decide (3 ≤ (recentDays.filter moderateOrAbove).length)

/-- Warning attached by the overtraining override; wording as exercised
by the frontend component test. -/
def overtrainingWarning : String :=
  "You have trained hard 3 days in a row. Consider an easy day."

/-- Warning attached by the anomaly override (spec 4.5). -/
def anomalyWarning : String :=
  "Elevated resting heart rate with depressed HRV may indicate illness. Rest is recommended."

/-- A recommendation in progress: the suggested intensity and the
accumulated warnings. -/
structure Recommendation where
  intensity : Intensity
  warnings : List String
deriving DecidableEq

/-- Modelled from the spec: the Recommendation Engine (spec 4.5) as the
ordered override pipeline of the design notes: base tier from the
status, then the overtraining override (warning plus one-tier
downgrade), then the anomaly override, which forces rest and attaches
an illness warning, overriding the tier decision entirely. -/
def computeRecommendation (score : RecoveryScore) (recentDays : List Intensity) :
    Recommendation :=
  let base : Recommendation := { intensity := baseTier score.status, warnings := [] }
  let afterOvertraining :=
    if overtrained recentDays then
      { intensity := downgradeTier base.intensity
        warnings := base.warnings ++ [overtrainingWarning] }
    else base
  if score.anomaly_flag then
    { intensity := Intensity.rest
      warnings := afterOvertraining.warnings ++ [anomalyWarning] }
  else afterOvertraining

/-- Styling class of the hard badge, from the intensityColors object of
WorkoutRecommendation.tsx. -/
def hardClass : String := "bg-red-100 text-red-800 border-red-200"

/-- Styling class of the moderate badge. -/
def moderateClass : String := "bg-yellow-100 text-yellow-800 border-yellow-200"

/-- Styling class of the recovery badge. -/
def recoveryClass : String := "bg-blue-100 text-blue-800 border-blue-200"

/-- Styling class of the rest badge. -/
def restClass : String := "bg-gray-100 text-gray-800 border-gray-200"

/-- The intensityColors object literal of WorkoutRecommendation.tsx as
a partial lookup on its four keys. -/
def intensityColors (intensity : String) : Option String :=
  if intensity = "hard" then some hardClass
  else if intensity = "moderate" then some moderateClass
  else if intensity = "recovery" then some recoveryClass
  else if intensity = "rest" then some restClass
  else none

/-- getIntensityColor of WorkoutRecommendation.tsx: the looked-up class,
falling back to the moderate class for any other key. -/
def getIntensityColor (intensity : String) : String :=
  (intensityColors intensity).getD moderateClass

/-- Math.min spread over a nonempty list, as in formatZones. -/
def jsMin (x : ℤ) (xs : List ℤ) : ℤ :=
  xs.foldl min x

/-- Math.max spread over a nonempty list, as in formatZones. -/
def jsMax (x : ℤ) (xs : List ℤ) : ℤ :=
  xs.foldl max x

/-- formatZones of WorkoutRecommendation.tsx: empty string for a null or
empty zone list, the single zone for a singleton, and the min-max range
otherwise. -/
def formatZones : Option (List ℤ) → String
  | none => ""
  | some [] => ""
  | some [z] => "Zone " ++ toString z
  | some (a :: b :: rest) =>
    "Zone " ++ toString (jsMin a (b :: rest)) ++ "-" ++ toString (jsMax a (b :: rest))

/-- A day with no metrics recorded. -/
def noMetrics : DailyMetrics :=
  ⟨none, none, none, none, none⟩

/-- An empty rolling baseline. -/
def noBaseline : RollingBaseline :=
  ⟨none, none, 0, none⟩

/-- The Scenario A metrics of the spec: HRV 65, resting HR 53, sleep 480
minutes at quality 85, stress 30. -/
def scnAMetrics : DailyMetrics :=
  ⟨some 65, some 53, some 480, some 85, some 30⟩

/-- The Scenario A baseline: HRV average 59, HR average 55, acute load
280, chronic load 320. -/
def scnABaseline : RollingBaseline :=
  ⟨some 59, some 55, 280, some 320⟩

/-- Metrics triggering the anomaly rule against scnABaseline: resting HR
62 (at least 1.10 times 55) with HRV 48 (at most 0.90 times 59). -/
def anomalyMetrics : DailyMetrics :=
  ⟨some 48, some 62, some 480, some 85, some 30⟩

/-- Metrics sitting exactly on the anomaly boundary against ceBaseline:
HRV 54 = 0.9 times 60 and resting HR 55 = 1.1 times 50, with perfect
sleep and zero stress, giving total 50 and status yellow. -/
def ceMetrics : DailyMetrics :=
  ⟨some 54, some 55, some 480, some 100, some 0⟩

/-- Baseline for ceMetrics. -/
def ceBaseline : RollingBaseline :=
  ⟨some 60, some 50, 280, some 320⟩

/-- Three moderate-or-harder sessions on the preceding three days. -/
def ceRecentDays : List Intensity :=
  [Intensity.moderate, Intensity.hard, Intensity.hard]

/-- Claim C2: the status of every recovery score is a pure deterministic
function of total_score with fixed thresholds: at least 80 is green,
between 50 and 79 is yellow, below 50 is red. -/
theorem statusOf_thresholds (t : ℤ) :
    (statusOf t = Status.green ↔ 80 ≤ t) ∧
    (statusOf t = Status.yellow ↔ 50 ≤ t ∧ t < 80) ∧
    (statusOf t = Status.red ↔ t < 50) := by
  unfold statusOf
  split_ifs with h1 h2 <;> refine ⟨?_, ?_, ?_⟩ <;> simp_all <;> omega

/-- Witness for statusOf_thresholds: one concrete total in each band. -/
theorem statusOf_thresholds_witness :
    statusOf 85 = Status.green ∧ statusOf 65 = Status.yellow ∧ statusOf 38 = Status.red :=
  ⟨(statusOf_thresholds 85).1.mpr (by norm_num),
   (statusOf_thresholds 65).2.1.mpr (by norm_num),
   (statusOf_thresholds 38).2.2.mpr (by norm_num)⟩

/-- Claim C6: the ACWR risk model returns ratio acute over chronic and
adjustment factor 0.8 above ratio 1.5, 0.9 between 1.3 exclusive and
1.5 inclusive, 1.0 otherwise; an absent or zero chronic load yields an
undefined ratio and factor exactly 1.0. -/
theorem acwrModel_policy (acute : ℚ) (chronic : Option ℚ) :
    (chronic = none → acwrModel acute chronic = (none, 1)) ∧
    (chronic = some 0 → acwrModel acute chronic = (none, 1)) ∧
    (∀ c : ℚ, chronic = some c → c ≠ 0 →
      (acwrModel acute chronic).1 = some (acute / c) ∧
      (3/2 < acute / c → (acwrModel acute chronic).2 = 4/5) ∧
      (13/10 < acute / c → acute / c ≤ 3/2 → (acwrModel acute chronic).2 = 9/10) ∧
      (acute / c ≤ 13/10 → (acwrModel acute chronic).2 = 1)) := by
  refine ⟨?_, ?_, ?_⟩
  · rintro rfl; rfl
  · rintro rfl; simp [acwrModel]
  · rintro c rfl hc
    refine ⟨by simp [acwrModel, hc], fun h => ?_, fun h1 h2 => ?_, fun h => ?_⟩
    · simp [acwrModel, hc, h]
    · simp [acwrModel, hc, h1, not_lt.mpr h2]
    · have h32 : acute / c ≤ 3/2 := by linarith
      simp [acwrModel, hc, not_lt.mpr h, not_lt.mpr h32]

/-- Witness for acwrModel_policy: the guard cases and one concrete
instance of each adjustment band. -/
theorem acwrModel_policy_witness :
    acwrModel 320 none = (none, 1) ∧
    acwrModel 320 (some 0) = (none, 1) ∧
    (acwrModel 320 (some 200)).2 = 4/5 ∧
    (acwrModel 280 (some 200)).2 = 9/10 ∧
    (acwrModel 200 (some 200)).2 = 1 := by
  refine ⟨(acwrModel_policy 320 none).1 rfl,
    (acwrModel_policy 320 (some 0)).2.1 rfl, ?_, ?_, ?_⟩
  · exact (((acwrModel_policy 320 (some 200)).2.2 200 rfl (by norm_num)).2.1 (by norm_num))
  · exact (((acwrModel_policy 280 (some 200)).2.2 200 rfl (by norm_num)).2.2.1
      (by norm_num) (by norm_num))
  · exact (((acwrModel_policy 200 (some 200)).2.2 200 rfl (by norm_num)).2.2.2 (by norm_num))

/-- Claim C7: the HRV component scorer computes the relative deviation
of today against the baseline and maps it piecewise linearly through
the anchors +10 percent to 100, -10 percent to 50, -20 percent to 0:
clamped to 100 at or above +10 percent, 75 + 250 d on the middle
segment, 100 + 500 d on the lower segment, clamped to 0 at or below
-20 percent (the segment forms agree with the anchors at every
boundary). -/
theorem hrv_component_piecewise (t b : ℚ) :
    (1/10 ≤ (t - b) / b → calculate_hrv_component t b = 100) ∧
    (-(1/10) ≤ (t - b) / b → (t - b) / b ≤ 1/10 →
      calculate_hrv_component t b = 75 + 250 * ((t - b) / b)) ∧
    (-(1/5) ≤ (t - b) / b → (t - b) / b ≤ -(1/10) →
      calculate_hrv_component t b = 100 + 500 * ((t - b) / b)) ∧
    ((t - b) / b ≤ -(1/5) → calculate_hrv_component t b = 0) := by
  unfold calculate_hrv_component hrvMap lerp
  set d := (t - b) / b with hd
  refine ⟨fun h => ?_, fun h1 h2 => ?_, fun h1 h2 => ?_, fun h => ?_⟩
  · rw [if_pos h]
  · rcases lt_or_le d (1/10) with hlt | hge
    · rw [if_neg (by linarith), if_pos h1]; ring
    · rw [if_pos hge]
      have hdeq : d = 1/10 := le_antisymm h2 hge
      rw [hdeq]; norm_num
  · rcases lt_or_le d (-(1/10)) with hlt | hge
    · rw [if_neg (by linarith), if_neg (by linarith), if_pos h1]; ring
    · have hdeq : d = -(1/10) := le_antisymm h2 hge
      rw [if_neg (by rw [hdeq]; norm_num), if_pos hge, hdeq]; norm_num
  · rcases lt_or_le d (-(1/5)) with hlt | hge
    · rw [if_neg (by linarith), if_neg (by linarith), if_neg (by linarith)]
    · have hdeq : d = -(1/5) := le_antisymm h hge
      rw [if_neg (by rw [hdeq]; norm_num), if_neg (by rw [hdeq]; norm_num),
        if_pos hge, hdeq]; norm_num

/-- Witness for hrv_component_piecewise: the Scenario A value 65 against
baseline 59 (deviation above +10 percent) scores exactly 100, a value
equal to its baseline scores 75, and a deviation below -20 percent
scores 0. -/
theorem hrv_component_piecewise_witness :
    calculate_hrv_component 65 59 = 100 ∧
    calculate_hrv_component 59 59 = 75 ∧
    calculate_hrv_component 40 59 = 0 := by
  refine ⟨(hrv_component_piecewise 65 59).1 (by norm_num), ?_,
    (hrv_component_piecewise 40 59).2.2.2 (by norm_num)⟩
  have h := (hrv_component_piecewise 59 59).2.1 (by norm_num) (by norm_num)
  rw [h]; norm_num

/-- Claim C1: with all four component scores present, the aggregator's
total score is round((0.4 hrv + 0.3 hr + 0.2 sleep + 0.1 stress) times
the adjustment factor), clamped into 0 to 100. -/
theorem aggregate_total_all_present (m : DailyMetrics) (b : RollingBaseline)
    (h r s t : ℚ)
    (h1 : hrvScorer m.hrv_ms b.hrv_avg_7d = some h)
    (h2 : hrScorer m.resting_hr_bpm b.hr_avg_7d = some r)
    (h3 : sleepScorer m.sleep_duration_minutes m.sleep_quality_score = some s)
    (h4 : stressScorer m.stress_level = some t) :
    (aggregate m b).total_score =
      max 0 (min 100 (round ((0.4 * h + 0.3 * r + 0.2 * s + 0.1 * t) *
        (aggregate m b).adjustment_factor))) := by
  have hsum : weightedSum (componentPairs ⟨some h, some r, some s, some t⟩) =
      some (0.4 * h + 0.3 * r + 0.2 * s + 0.1 * t) := by
    simp [weightedSum, presentPairs, componentPairs]
    norm_num
    ring
  have key : ∀ adj : ℚ, totalScoreOf ⟨some h, some r, some s, some t⟩ adj =
      some (max 0 (min 100 (round ((0.4 * h + 0.3 * r + 0.2 * s + 0.1 * t) * adj)))) := by
    intro adj
    simp [totalScoreOf, hsum, clampScore]
  simp only [aggregate, h1, h2, h3, h4]
  rw [key]
  simp

/-- Witness for aggregate_total_all_present: the Scenario A input, where
the component scores are 100, 950/11, 94 and 70 and the total evaluates
through the claimed formula. -/
theorem aggregate_total_all_present_witness :
    (aggregate scnAMetrics scnABaseline).total_score =
      max 0 (min 100 (round ((0.4 * 100 + 0.3 * (950/11) + 0.2 * 94 + 0.1 * 70) *
        (aggregate scnAMetrics scnABaseline).adjustment_factor))) :=
  aggregate_total_all_present scnAMetrics scnABaseline 100 (950/11) 94 70
    (by norm_num [hrvScorer, calculate_hrv_component, hrvMap, lerp, scnAMetrics, scnABaseline])
    (by norm_num [hrScorer, calculate_hr_component, hrMap, lerp, scnAMetrics, scnABaseline])
    (by norm_num [sleepScorer, calculate_sleep_component, sleepDurationScore, lerp, scnAMetrics])
    (by norm_num [stressScorer, calculate_stress_component, scnAMetrics])

/-- Claim C3: computeRecoveryScore fails with the typed
InsufficientHistory error carrying days_available and days_required
whenever fewer than 7 days of metrics are on record, and succeeds
otherwise. -/
theorem computeRecoveryScore_history_check (history : List DailyMetrics)
    (today : DailyMetrics) (b : RollingBaseline) :
    (history.length < 7 →
      computeRecoveryScore history today b =
        Except.error ⟨history.length, 7⟩) ∧
    (7 ≤ history.length →
      computeRecoveryScore history today b = Except.ok (aggregate today b)) := by
  constructor
  · intro h
    simp [computeRecoveryScore, h]
  · intro h
    simp [computeRecoveryScore, Nat.not_lt.mpr h]

/-- Witness for computeRecoveryScore_history_check: Scenario C with 3
days on record fails with days_available 3 and days_required 7, and a
7-day history succeeds. -/
theorem computeRecoveryScore_history_check_witness :
    computeRecoveryScore (List.replicate 3 noMetrics) scnAMetrics scnABaseline =
      Except.error ⟨3, 7⟩ ∧
    computeRecoveryScore (List.replicate 7 noMetrics) scnAMetrics scnABaseline =
      Except.ok (aggregate scnAMetrics scnABaseline) := by
  constructor
  · have h := (computeRecoveryScore_history_check (List.replicate 3 noMetrics)
      scnAMetrics scnABaseline).1 (by simp)
    simpa using h
  · exact (computeRecoveryScore_history_check (List.replicate 7 noMetrics)
      scnAMetrics scnABaseline).2 (by simp)

/-- Claim C4: whenever today's resting HR is at least 1.10 times its
baseline and today's HRV is at most 0.90 times its baseline, the
aggregator sets the anomaly flag and the recommendation engine forces
the intensity to rest, regardless of the numeric total score. -/
theorem anomaly_forces_rest (m : DailyMetrics) (b : RollingBaseline)
    (ht hb vt vb : ℚ) (recentDays : List Intensity)
    (hm1 : m.resting_hr_bpm = some ht) (hm2 : b.hr_avg_7d = some hb)
    (hm3 : m.hrv_ms = some vt) (hm4 : b.hrv_avg_7d = some vb)
    (hr1 : 11/10 * hb ≤ ht) (hr2 : vt ≤ 9/10 * vb) :
    (aggregate m b).anomaly_flag = true ∧
    (computeRecommendation (aggregate m b) recentDays).intensity = Intensity.rest := by
  have hflag : (aggregate m b).anomaly_flag = true := by
    simp [aggregate, anomalyFlagOf, hm1, hm2, hm3, hm4]
    exact ⟨hr1, hr2⟩
  refine ⟨hflag, ?_⟩
  simp [computeRecommendation, hflag]

/-- Witness for anomaly_forces_rest: resting HR 62 against baseline 55
with HRV 48 against baseline 59 flags the anomaly and the engine
recommends rest. -/
theorem anomaly_forces_rest_witness :
    (aggregate anomalyMetrics scnABaseline).anomaly_flag = true ∧
    (computeRecommendation (aggregate anomalyMetrics scnABaseline) []).intensity =
      Intensity.rest :=
  anomaly_forces_rest anomalyMetrics scnABaseline 62 55 48 59 []
    rfl rfl rfl rfl (by norm_num) (by norm_num)

/-- Counterexample to claim C5 as stated: on an input where the
overtraining condition holds (three moderate-or-harder days) but the
anomaly flag is also set, the engine appends the warning yet the
intensity is rest, not one tier below what the raw status (yellow,
hence moderate, downgraded easy) alone implies: the anomaly override
takes precedence. -/
theorem overtraining_claim_counterexample :
    overtrained ceRecentDays = true ∧
    overtrainingWarning ∈
      (computeRecommendation (aggregate ceMetrics ceBaseline) ceRecentDays).warnings ∧
    ¬ ((computeRecommendation (aggregate ceMetrics ceBaseline) ceRecentDays).intensity =
        downgradeTier (baseTier (aggregate ceMetrics ceBaseline).status)) := by
  have hflag : (aggregate ceMetrics ceBaseline).anomaly_flag = true := by
    norm_num [aggregate, anomalyFlagOf, ceMetrics, ceBaseline]
  have e1 : hrvScorer ceMetrics.hrv_ms ceBaseline.hrv_avg_7d = some 50 := by
    norm_num [hrvScorer, calculate_hrv_component, hrvMap, lerp, ceMetrics, ceBaseline]
  have e2 : hrScorer ceMetrics.resting_hr_bpm ceBaseline.hr_avg_7d = some 0 := by
    norm_num [hrScorer, calculate_hr_component, hrMap, lerp, ceMetrics, ceBaseline]
  have e3 : sleepScorer ceMetrics.sleep_duration_minutes ceMetrics.sleep_quality_score =
      some 100 := by
    norm_num [sleepScorer, calculate_sleep_component, sleepDurationScore, lerp, ceMetrics]
  have e4 : stressScorer ceMetrics.stress_level = some 100 := by
    norm_num [stressScorer, calculate_stress_component, ceMetrics]
  have hws : weightedSum (componentPairs ⟨some 50, some 0, some 100, some 100⟩) =
      some 50 := by
    norm_num [weightedSum, presentPairs, componentPairs, List.filterMap_cons]
  have hstat : (aggregate ceMetrics ceBaseline).status = Status.yellow := by
    simp only [aggregate, e1, e2, e3, e4]
    norm_num [totalScoreOf, hws, acwrModel, ceBaseline, clampScore, statusOf]
  refine ⟨by decide, ?_, ?_⟩
  · simp [computeRecommendation, hflag, overtrained, ceRecentDays, moderateOrAbove]
  · simp [computeRecommendation, hflag, hstat, baseTier, downgradeTier]

/-- Claim C5 (amended): when the overtraining condition holds and the
anomaly flag is not set, the engine appends the overtraining warning
and suggests exactly one tier below what the raw status alone implies
(saturating at rest); when the anomaly flag is set, the anomaly
override forces rest instead. -/
theorem overtraining_downgrade (score : RecoveryScore) (recentDays : List Intensity)
    (hot : overtrained recentDays = true) (han : score.anomaly_flag = false) :
    (computeRecommendation score recentDays).intensity =
      downgradeTier (baseTier score.status) ∧
    overtrainingWarning ∈ (computeRecommendation score recentDays).warnings := by
  simp [computeRecommendation, hot, han]

/-- Witness for overtraining_downgrade: the Scenario A score (green, no
anomaly) with three moderate-or-harder preceding days yields the
downgraded tier and the warning. -/
theorem overtraining_downgrade_witness :
    (computeRecommendation (aggregate scnAMetrics scnABaseline) ceRecentDays).intensity =
      downgradeTier (baseTier (aggregate scnAMetrics scnABaseline).status) ∧
    overtrainingWarning ∈
      (computeRecommendation (aggregate scnAMetrics scnABaseline) ceRecentDays).warnings :=
  overtraining_downgrade (aggregate scnAMetrics scnABaseline) ceRecentDays
    (by decide) (by norm_num [aggregate, anomalyFlagOf, scnAMetrics, scnABaseline])

/-- Helper: a sum of mapped divisions pulls the common divisor out. -/
theorem sum_map_div (l : List (ℚ × ℚ)) (f : ℚ × ℚ → ℚ) (c : ℚ) :
    (l.map (fun p => f p / c)).sum = (l.map f).sum / c := by
  induction l with
  | nil => simp
  | cons x xs ih => simp [ih, add_div]

/-- Helper: over any weighted list with nonzero total weight, the
weights divided by their total sum to one, and dividing the weighted
sum by the total weight is the same as summing with the renormalised
weights. -/
theorem rescaled_weights (l : List (ℚ × ℚ)) (hz : (l.map Prod.fst).sum ≠ 0) :
    (l.map (fun p => p.1 / (l.map Prod.fst).sum)).sum = 1 ∧
    ((l.map (fun p => p.1 * p.2)).sum) / ((l.map Prod.fst).sum) =
      (l.map (fun p => p.1 / (l.map Prod.fst).sum * p.2)).sum := by
  constructor
  · rw [sum_map_div l Prod.fst ((l.map Prod.fst).sum)]
    exact div_self hz
  · have hfun : (fun p : ℚ × ℚ => p.1 / (l.map Prod.fst).sum * p.2) =
        fun p : ℚ × ℚ => (p.1 * p.2) / (l.map Prod.fst).sum := by
      funext p
      ring
    rw [hfun, sum_map_div l (fun p => p.1 * p.2) ((l.map Prod.fst).sum)]

/-- Claim C8: a missing metric makes its scorer return none, the absent
component is excluded from the weighted sum rather than counted as
zero, and the weights of the present components are renormalised
proportionally so they sum to one. -/
theorem missing_component_excluded (b q : Option ℚ) (w : ℚ)
    (rest ps : List (ℚ × Option ℚ)) :
    hrvScorer none b = none ∧
    hrScorer none b = none ∧
    sleepScorer none q = none ∧
    stressScorer none = none ∧
    weightedSum ((w, none) :: rest) = weightedSum rest ∧
    (presentPairs ps ≠ [] → ((presentPairs ps).map Prod.fst).sum ≠ 0 →
      ((presentPairs ps).map (fun p => p.1 / ((presentPairs ps).map Prod.fst).sum)).sum = 1 ∧
      weightedSum ps = some (((presentPairs ps).map
        (fun p => p.1 / ((presentPairs ps).map Prod.fst).sum * p.2)).sum)) := by
  have hpp : presentPairs ((w, none) :: rest) = presentPairs rest := by
    simp [presentPairs]
  refine ⟨by cases b <;> rfl, by cases b <;> rfl, rfl, rfl,
    by simp only [weightedSum, hpp], ?_⟩
  intro hne hz
  have h := rescaled_weights (presentPairs ps) hz
  refine ⟨h.1, ?_⟩
  have hie : (presentPairs ps).isEmpty = false := by
    cases hp : presentPairs ps with
    | nil => exact absurd hp hne
    | cons a l => rfl
  rw [weightedSum]
  simp only [hie, Bool.false_eq_true, if_false]
  rw [h.2]

/-- Witness for missing_component_excluded: with the HRV score absent
and the other three components 80, 60 and 40, the weighted sum is
200/3, the renormalised average of the present components. -/
theorem missing_component_excluded_witness :
    hrvScorer none (some 50) = none ∧
    weightedSum (componentPairs ⟨none, some 80, some 60, some 40⟩) = some (200/3) := by
  have h := missing_component_excluded (some 50) (some 70) (2/5) [(3/10, some 80)]
    (componentPairs ⟨none, some 80, some 60, some 40⟩)
  refine ⟨h.1, ?_⟩
  have h2 := h.2.2.2.2.2
    (by simp [presentPairs, componentPairs, List.filterMap_cons])
    (by norm_num [presentPairs, componentPairs, List.filterMap_cons])
  rw [h2.2]
  norm_num [presentPairs, componentPairs, List.filterMap_cons]

/-- Claim C9: getIntensityColor is total over arbitrary intensity
strings: every input outside hard, moderate, recovery and rest yields
the moderate styling class. -/
theorem getIntensityColor_default (s : String)
    (h1 : s ≠ "hard") (h2 : s ≠ "moderate") (h3 : s ≠ "recovery") (h4 : s ≠ "rest") :
    getIntensityColor s = moderateClass := by
  simp [getIntensityColor, intensityColors, h1, h2, h3, h4]

/-- Witness for getIntensityColor_default: the spec tiers easy and
maximal render with the moderate styling class, indistinguishably from
moderate. -/
theorem getIntensityColor_default_witness :
    getIntensityColor ("easy") = moderateClass ∧
    getIntensityColor ("maximal") = moderateClass :=
  ⟨getIntensityColor_default ("easy") (by decide) (by decide) (by decide) (by decide),
   getIntensityColor_default ("maximal") (by decide) (by decide) (by decide) (by decide)⟩

/-- Helper: the Math.min fold over a nonempty list lands in the list. -/
theorem jsMin_mem (x : ℤ) (l : List ℤ) : jsMin x l ∈ x :: l := by
  induction l generalizing x with
  | nil => simp [jsMin]
  | cons a as ih =>
    have h := ih (min x a)
    simp only [jsMin, List.foldl_cons] at h ⊢
    rcases List.mem_cons.mp h with h1 | h1
    · rw [h1]
      rcases min_choice x a with hm | hm <;> rw [hm] <;> simp
    · simp [List.mem_cons, h1]

/-- Helper: the Math.min fold bounds the initial value and every list
element from below. -/
theorem jsMin_le (x : ℤ) (l : List ℤ) : ∀ y ∈ x :: l, jsMin x l ≤ y := by
  induction l generalizing x with
  | nil =>
    intro y hy
    simp only [List.mem_cons, List.not_mem_nil, or_false] at hy
    simp [jsMin, hy]
  | cons a as ih =>
    intro y hy
    have hbase : jsMin (min x a) as ≤ min x a :=
      ih (min x a) (min x a) (List.mem_cons_self _ _)
    show jsMin (min x a) as ≤ y
    simp only [List.mem_cons] at hy
    rcases hy with rfl | rfl | hy
    · exact le_trans hbase (min_le_left _ _)
    · exact le_trans hbase (min_le_right _ _)
    · exact ih (min x a) y (List.mem_cons_of_mem _ hy)

/-- Helper: the Math.max fold over a nonempty list lands in the list. -/
theorem jsMax_mem (x : ℤ) (l : List ℤ) : jsMax x l ∈ x :: l := by
  induction l generalizing x with
  | nil => simp [jsMax]
  | cons a as ih =>
    have h := ih (max x a)
    simp only [jsMax, List.foldl_cons] at h ⊢
    rcases List.mem_cons.mp h with h1 | h1
    · rw [h1]
      rcases max_choice x a with hm | hm <;> rw [hm] <;> simp
    · simp [List.mem_cons, h1]

/-- Helper: the Math.max fold bounds the initial value and every list
element from above. -/
theorem jsMax_ge (x : ℤ) (l : List ℤ) : ∀ y ∈ x :: l, y ≤ jsMax x l := by
  induction l generalizing x with
  | nil =>
    intro y hy
    simp only [List.mem_cons, List.not_mem_nil, or_false] at hy
    simp [jsMax, hy]
  | cons a as ih =>
    intro y hy
    have hbase : max x a ≤ jsMax (max x a) as :=
      ih (max x a) (max x a) (List.mem_cons_self _ _)
    show y ≤ jsMax (max x a) as
    simp only [List.mem_cons] at hy
    rcases hy with rfl | rfl | hy
    · exact le_trans (le_max_left _ _) hbase
    · exact le_trans (le_max_right _ _) hbase
    · exact ih (max x a) y (List.mem_cons_of_mem _ hy)

/-- Helper: the fold minimum is invariant under permutation. -/
theorem jsMin_perm (a x : ℤ) (l1 l2 : List ℤ) (h : (a :: l1).Perm (x :: l2)) :
    jsMin a l1 = jsMin x l2 :=
  le_antisymm
    (jsMin_le a l1 (jsMin x l2) (h.mem_iff.mpr (jsMin_mem x l2)))
    (jsMin_le x l2 (jsMin a l1) (h.mem_iff.mp (jsMin_mem a l1)))

/-- Helper: the fold maximum is invariant under permutation. -/
theorem jsMax_perm (a x : ℤ) (l1 l2 : List ℤ) (h : (a :: l1).Perm (x :: l2)) :
    jsMax a l1 = jsMax x l2 :=
  le_antisymm
    (jsMax_ge x l2 (jsMax a l1) (h.mem_iff.mp (jsMax_mem a l1)))
    (jsMax_ge a l1 (jsMax x l2) (h.mem_iff.mpr (jsMax_mem x l2)))

/-- Claim C10: formatZones returns the empty string on null or empty
zone lists, the single zone for a singleton, and the range from the
minimum to the maximum of the list for every longer list; consequently
its output is invariant under any permutation of the input list. -/
theorem formatZones_spec :
    (formatZones none = "" ∧ formatZones (some []) = "") ∧
    (∀ n : ℤ, formatZones (some [n]) = "Zone " ++ toString n) ∧
    (∀ a b : ℤ, ∀ rest : List ℤ, ∃ m M : ℤ,
      m ∈ a :: b :: rest ∧ (∀ y ∈ a :: b :: rest, m ≤ y) ∧
      M ∈ a :: b :: rest ∧ (∀ y ∈ a :: b :: rest, y ≤ M) ∧
      formatZones (some (a :: b :: rest)) =
        "Zone " ++ toString m ++ "-" ++ toString M) ∧
    (∀ l1 l2 : List ℤ, l1.Perm l2 → formatZones (some l1) = formatZones (some l2)) := by
  refine ⟨⟨rfl, rfl⟩, fun n => rfl, fun a b rest => ?_, fun l1 l2 h => ?_⟩
  · exact ⟨jsMin a (b :: rest), jsMax a (b :: rest), jsMin_mem a (b :: rest),
      jsMin_le a (b :: rest), jsMax_mem a (b :: rest), jsMax_ge a (b :: rest), rfl⟩
  · have hlen := h.length_eq
    rcases l1 with _ | ⟨a, _ | ⟨b, r1⟩⟩ <;> rcases l2 with _ | ⟨x, _ | ⟨y, r2⟩⟩ <;>
        simp only [List.length_cons, List.length_nil] at hlen <;> try omega
    · rfl
    · have hax : a = x := by
        have hm := h.mem_iff.mp (List.mem_cons_self a [])
        simpa using hm
      rw [hax]
    · simp only [formatZones]
      rw [jsMin_perm a x (b :: r1) (y :: r2) h, jsMax_perm a x (b :: r1) (y :: r2) h]

/-- Witness for formatZones_spec: a singleton formats as Zone 3, and the
permuted lists [4, 2, 5] and [5, 4, 2] format identically. -/
theorem formatZones_spec_witness :
    formatZones (some [3]) = "Zone 3" ∧
    formatZones (some [4, 2, 5]) = formatZones (some [5, 4, 2]) := by
  constructor
  · rw [formatZones_spec.2.1 3]
    rfl
  · exact formatZones_spec.2.2.2 [4, 2, 5] [5, 4, 2] (by decide)

end AITrainer
